import Mathlib

/-
Verification development for the Word Vector API
(`word-embeddings-app/main.py`, the variant of the service the design
document describes: it is the one with request validation, rate limiting
and the staged startup state).

Modelling conventions:
  * Word vectors are lists of rationals (the source stores float arrays;
    rationals stand in for floats, and the one irrational quantity the
    service reports, the cosine similarity, is a real number).
  * The embedding model itself (gensim) is an external collaborator: its
    operations `similarity` and `most_similar` are modelled from the spec
    where so marked, everything else is translated from the handlers'
    source.
  * Python's `str.lower` is modelled on the character level via
    `Char.toLower` (the validated inputs are ASCII).
  * An HTTP response is a shape: error responses carry status and detail,
    success responses carry the JSON fields the handler builds.  The
    similarity value, a real number, is exposed through the separate
    function `similarityValue` so that the response shapes stay decidable.
-/

set_option maxRecDepth 4000

namespace WordVec

/-- A word vector: the source keeps one float array per vocabulary word. -/
abbrev Vec := List ℚ

/-- The loaded gensim `KeyedVectors`: an ordered association of vocabulary
words to vectors (`key_to_index` order) plus the stored dimensionality. -/
structure VectorModel where
  vecs : List (String × Vec)
  vector_size : Nat
  deriving DecidableEq

/-- The vocabulary in `key_to_index` iteration order. -/
def VectorModel.keys (m : VectorModel) : List String := m.vecs.map Prod.fst

/-- Vector lookup by word. -/
def VectorModel.find (m : VectorModel) (w : String) : Option Vec :=
  List.lookup w m.vecs

/-- `w in model.key_to_index`. -/
def VectorModel.inVocab (m : VectorModel) (w : String) : Bool :=
  (m.find w).isSome

/-- `len(model.key_to_index)`. -/
def VectorModel.vocabSize (m : VectorModel) : Nat := m.vecs.length

/-- Dot product of two vectors (componentwise, truncating like zip). -/
def dotQ (u v : Vec) : ℚ := (List.zipWith (fun a b => a * b) u v).sum

/-- Squared Euclidean norm. -/
def normSqQ (u : Vec) : ℚ := dotQ u u

theorem dotQ_nil (v : Vec) : dotQ [] v = 0 := rfl

theorem dotQ_nil_right (u : Vec) : dotQ u [] = 0 := by
  cases u <;> rfl

theorem dotQ_cons (x y : ℚ) (u v : Vec) :
    dotQ (x :: u) (y :: v) = x * y + dotQ u v := by
  simp [dotQ, List.zipWith]

theorem dotQ_comm (u v : Vec) : dotQ u v = dotQ v u := by
  induction u generalizing v with
  | nil => cases v <;> simp [dotQ]
  | cons x u ih =>
    cases v with
    | nil => simp [dotQ]
    | cons y v => rw [dotQ_cons, dotQ_cons, mul_comm, ih]

theorem normSqQ_nonneg (u : Vec) : 0 ≤ normSqQ u := by
  induction u with
  | nil => simp [normSqQ, dotQ]
  | cons x u ih =>
    have h := dotQ_cons x x u u
    have hx := mul_self_nonneg x
    unfold normSqQ at *
    rw [h]
    nlinarith

/-- Cauchy-Schwarz for the rational dot product. -/
theorem dotQ_sq_le (u v : Vec) : (dotQ u v) ^ 2 ≤ normSqQ u * normSqQ v := by
  induction u generalizing v with
  | nil => simp [dotQ, normSqQ]
  | cons x u ih =>
    cases v with
    | nil =>
      rw [dotQ_nil_right]
      simp [normSqQ, dotQ]
    | cons y v =>
      have h := ih v
      have hu := normSqQ_nonneg u
      have hv := normSqQ_nonneg v
      have hcons : normSqQ (x :: u) = x * x + normSqQ u := dotQ_cons x x u u
      have hconsv : normSqQ (y :: v) = y * y + normSqQ v := dotQ_cons y y v v
      rw [dotQ_cons, hcons, hconsv]
      rcases hu.eq_or_lt with hp0 | hp
      · -- normSqQ u = 0 forces dotQ u v = 0
        have hd0 : dotQ u v = 0 := by nlinarith [sq_nonneg (dotQ u v)]
        rw [hd0, ← hp0]
        nlinarith [mul_self_nonneg x, mul_self_nonneg y, mul_self_nonneg (x * y)]
      · have key : 0 ≤ (normSqQ u * y - dotQ u v * x) ^ 2
            + (x * x + normSqQ u) * (normSqQ u * normSqQ v - (dotQ u v) ^ 2) :=
          add_nonneg (sq_nonneg _)
            (mul_nonneg (by nlinarith [mul_self_nonneg x]) (by nlinarith))
        have expand : (normSqQ u * y - dotQ u v * x) ^ 2
            + (x * x + normSqQ u) * (normSqQ u * normSqQ v - (dotQ u v) ^ 2)
            = normSqQ u * ((x * x + normSqQ u) * (y * y + normSqQ v)
                - (x * y + dotQ u v) ^ 2) := by ring
        rw [expand] at key
        have := (mul_nonneg_iff_of_pos_left hp).mp key
        linarith

/-- Cosine similarity over the idealised reals: `dot / (|u| * |v|)`
(gensim computes this over floats; division by a zero norm is the junk
value 0 here, which the bounds below absorb). -/
noncomputable def cosSimV (u v : Vec) : ℝ :=
  ((dotQ u v : ℚ) : ℝ)
    / (Real.sqrt ((normSqQ u : ℚ) : ℝ) * Real.sqrt ((normSqQ v : ℚ) : ℝ))

theorem cosSimV_comm (u v : Vec) : cosSimV u v = cosSimV v u := by
  unfold cosSimV
  rw [dotQ_comm, mul_comm]

theorem cosSimV_bounds (u v : Vec) : -1 ≤ cosSimV u v ∧ cosSimV u v ≤ 1 := by
  have ha0 : (0 : ℝ) ≤ ((normSqQ u : ℚ) : ℝ) := by exact_mod_cast normSqQ_nonneg u
  have hb0 : (0 : ℝ) ≤ ((normSqQ v : ℚ) : ℝ) := by exact_mod_cast normSqQ_nonneg v
  have hcs : ((dotQ u v : ℚ) : ℝ) ^ 2
      ≤ ((normSqQ u : ℚ) : ℝ) * ((normSqQ v : ℚ) : ℝ) := by
    exact_mod_cast dotQ_sq_le u v
  have hD0 : (0 : ℝ) ≤ Real.sqrt ((normSqQ u : ℚ) : ℝ) * Real.sqrt ((normSqQ v : ℚ) : ℝ) :=
    mul_nonneg (Real.sqrt_nonneg _) (Real.sqrt_nonneg _)
  have hD2 : (Real.sqrt ((normSqQ u : ℚ) : ℝ) * Real.sqrt ((normSqQ v : ℚ) : ℝ)) ^ 2
      = ((normSqQ u : ℚ) : ℝ) * ((normSqQ v : ℚ) : ℝ) := by
    rw [mul_pow, Real.sq_sqrt ha0, Real.sq_sqrt hb0]
  have habs : |cosSimV u v| ≤ 1 := by
    unfold cosSimV
    rcases hD0.eq_or_lt with h0 | hpos
    · have hab : ((normSqQ u : ℚ) : ℝ) * ((normSqQ v : ℚ) : ℝ) = 0 := by
        rw [← hD2, ← h0]
        norm_num
      have hd0 : ((dotQ u v : ℚ) : ℝ) = 0 := by
        nlinarith [sq_nonneg ((dotQ u v : ℚ) : ℝ)]
      simp [hd0]
    · have hdle : |((dotQ u v : ℚ) : ℝ)|
          ≤ Real.sqrt ((normSqQ u : ℚ) : ℝ) * Real.sqrt ((normSqQ v : ℚ) : ℝ) := by
        by_contra hlt
        push_neg at hlt
        have h1 : (Real.sqrt ((normSqQ u : ℚ) : ℝ) * Real.sqrt ((normSqQ v : ℚ) : ℝ)) ^ 2
            < |((dotQ u v : ℚ) : ℝ)| ^ 2 := by nlinarith [abs_nonneg ((dotQ u v : ℚ) : ℝ)]
        rw [sq_abs] at h1
        nlinarith
      rw [abs_div, abs_of_pos hpos]
      exact (div_le_one hpos).mpr hdle
  exact abs_le.mp habs

/-! ## Ranking key for nearest-neighbor search

Sorting by the real cosine is not decidable, so ranking uses the rational
key `t ↦ sign(dot) * dot^2 / (normSq * normSq)`: the image of the cosine
under the strictly increasing map `t ↦ t * |t|`, hence order-isomorphic to
ranking by cosine similarity (ties included). -/

/-- The rational order key standing for `cosSimV u v` in comparisons. -/
def simKeyV (u v : Vec) : ℚ :=
  (dotQ u v * |dotQ u v|) / (normSqQ u * normSqQ v)

/-- `simKeyV` is the cosine pushed through the strictly increasing map
`t ↦ t * |t|`; this justifies ranking by the key. -/
theorem simKeyV_eq_cos_mul_abs (u v : Vec) :
    ((simKeyV u v : ℚ) : ℝ) = cosSimV u v * |cosSimV u v| := by
  have ha0 : (0 : ℝ) ≤ ((normSqQ u : ℚ) : ℝ) := by exact_mod_cast normSqQ_nonneg u
  have hb0 : (0 : ℝ) ≤ ((normSqQ v : ℚ) : ℝ) := by exact_mod_cast normSqQ_nonneg v
  have hD0 : (0 : ℝ)
      ≤ Real.sqrt ((normSqQ u : ℚ) : ℝ) * Real.sqrt ((normSqQ v : ℚ) : ℝ) :=
    mul_nonneg (Real.sqrt_nonneg _) (Real.sqrt_nonneg _)
  have hD2 : (Real.sqrt ((normSqQ u : ℚ) : ℝ) * Real.sqrt ((normSqQ v : ℚ) : ℝ))
        * (Real.sqrt ((normSqQ u : ℚ) : ℝ) * Real.sqrt ((normSqQ v : ℚ) : ℝ))
      = ((normSqQ u : ℚ) : ℝ) * ((normSqQ v : ℚ) : ℝ) := by
    rw [mul_mul_mul_comm, Real.mul_self_sqrt ha0, Real.mul_self_sqrt hb0]
  unfold simKeyV cosSimV
  rw [abs_div, abs_of_nonneg hD0, div_mul_div_comm, hD2]
  push_cast
  ring

/-! ## Strings and the model operations -/

/-- Python's `str.lower`, character by character (the service's validated
inputs are ASCII, where `Char.toLower` agrees with Python). -/
def pyLower (s : String) : String := ⟨s.data.map Char.toLower⟩

/-- A single-quote character, used verbatim in the service's error details. -/
def squote : String := String.singleton (Char.ofNat 39)

/-- The detail text `Word '<w>' not found in vocabulary`. -/
def wordNotFoundDetail (w : String) : String :=
  "Word " ++ squote ++ w ++ squote ++ " not found in vocabulary"

/-- `str(HTTPException(status, detail))` as starlette renders it:
`"<status>: <detail>"`.  The handlers' `except Exception` blocks feed this
through `HTTPException(500, str(e))`. -/
def httpExcStr (status : Nat) (detail : String) : String :=
  toString status ++ ": " ++ detail

/-- Sort order for (word, score) rows: best score first. -/
def byScoreDesc : (String × ℚ) → (String × ℚ) → Prop :=
  fun p q => q.2 ≤ p.2

instance : DecidableRel byScoreDesc :=
  fun p q => inferInstanceAs (Decidable (q.2 ≤ p.2))

instance : IsTotal (String × ℚ) byScoreDesc :=
  ⟨fun p q => le_total q.2 p.2⟩

instance : IsTrans (String × ℚ) byScoreDesc :=
  ⟨fun _ _ _ h1 h2 => le_trans h2 h1⟩

/-- The ranking key of vocabulary word `k` against query word `w`. -/
def neighborScore (m : VectorModel) (w k : String) : ℚ :=
  match m.find w, m.find k with
  | some u, some v => simKeyV u v
  | _, _ => 0

/-- Modelled from the spec: gensim's `most_similar(word, topn=topn)` is not
part of this repository; the spec describes it as returning "up to `topn`
nearest vocabulary words to `word` by cosine similarity, excluding the word
itself, ordered descending by score".  Scores are represented by the
order-isomorphic rational key `simKeyV` (see `simKeyV_eq_cos_mul_abs`). -/
def mostSimilar (m : VectorModel) (w : String) (topn : Nat) : List (String × ℚ) :=
  (List.insertionSort byScoreDesc
    ((m.keys.filter (fun k => k != w)).map (fun k => (k, neighborScore m w k)))).take topn

/-- Componentwise vector sum (truncating like zip). -/
def vecAdd (u v : Vec) : Vec := List.zipWith (fun a b => a + b) u v

/-- Componentwise vector difference (truncating like zip). -/
def vecSub (u v : Vec) : Vec := List.zipWith (fun a b => a - b) u v

/-- The ranking key of vocabulary word `k` against the analogy target
vector `a + c - b`. -/
def analogyScore (m : VectorModel) (a b c k : String) : ℚ :=
  match m.find a, m.find b, m.find c, m.find k with
  | some ua, some ub, some uc, some v => simKeyV (vecSub (vecAdd ua uc) ub) v
  | _, _, _, _ => 0

/-- Modelled from the spec: gensim's
`most_similar(positive=[a, c], negative=[b], topn=topn)` is not part of this
repository; the spec describes analogy solving as computing "nearest vectors
to `(a + c - b)` excluding the input words by the underlying model's default
exclusion", returning up to `topn` (word, score) pairs ordered by descending
score.  Scores use the same rational ranking key as `mostSimilar`. -/
def analogyMostSimilar (m : VectorModel) (a b c : String) (topn : Nat) :
    List (String × ℚ) :=
  (List.insertionSort byScoreDesc
    ((m.keys.filter (fun k => k != a && k != b && k != c)).map
      (fun k => (k, analogyScore m a b c k)))).take topn

/-! ## Startup state and responses -/

/-- The `app.state` fields the lifespan manages: `model_loaded`,
`loading_status`, `loading_progress`, `model`. -/
structure StartupState where
  model_loaded : Bool
  loading_status : String
  loading_progress : Nat
  model : Option VectorModel
  deriving DecidableEq

/-- Reading `app.state` through the handlers' `getattr(..., default)` calls:
before the lifespan has set the attributes, `model_loaded` reads `False`,
`loading_status` reads `"Unknown"`, `loading_progress` reads `0` and the
model is absent. -/
def readState : Option StartupState → StartupState
  | some s => s
  | none => ⟨false, "Unknown", 0, none⟩

/-- The response shapes the service produces.  `jsonDetail` is FastAPI's
rendering of a raised `HTTPException` (`{"detail": ...}` with the status),
`plainText` the rate-limit handler's `PlainTextResponse`,
`validationError` FastAPI's 422 for a query-parameter constraint violation,
and the `...Ok` constructors are the 200 bodies the handlers build.
The similarity float of `/similarity` is exposed via `similarityValue`. -/
inductive Response where
  | jsonDetail (status : Nat) (detail : String)
  | plainText (status : Nat) (body : String)
  | validationError
  | rootOk
  | similarityOk (word1 word2 : String)
  | analogyOk (analogy : String) (results : List (String × ℚ))
  | neighborsOk (word : String) (neighbors : List (String × ℚ))
  | healthOk (status : String) (model_loaded : Bool) (vocabulary_size : Nat)
  | loadingStatusOk (model_loaded : Bool) (loading_status : String)
      (loading_progress : Nat) (vocabulary_size : Nat)
  | vocabOk (vocabulary_size : Nat) (vector_dimensions : Nat)
      (sample_words : List String)
  deriving DecidableEq

/-- The HTTP status of a response shape. -/
def Response.statusCode : Response → Nat
  | .jsonDetail s _ => s
  | .plainText s _ => s
  | .validationError => 422
  | _ => 200

/-- The 503 the handlers raise while no model is published. -/
def modelNotLoadedResp : Response := Response.jsonDetail 503 "Model not loaded"

/-! ## Endpoint handlers (translated from `word-embeddings-app/main.py`)

Each handler below takes the startup state and its already-validated query
parameters.  The source wraps its body in `try: ... except Exception as e:
raise HTTPException(500, str(e))`; since FastAPI's `HTTPException` is an
`Exception` subclass, an `HTTPException(404)` raised inside the `try` is
caught and re-raised as status 500 with detail `str(e) = "404: ..."` — the
translation reproduces that.  The 503 check sits before the `try` block and
propagates unchanged. -/

/-- `GET /similarity` (`get_similarity`). -/
def get_similarity (s : StartupState) (word1 word2 : String) : Response :=
  match s.model_loaded, s.model with
  | true, some m =>
    if !(m.inVocab (pyLower word1)) then
      Response.jsonDetail 500 (httpExcStr 404 (wordNotFoundDetail word1))
    else if !(m.inVocab (pyLower word2)) then
      Response.jsonDetail 500 (httpExcStr 404 (wordNotFoundDetail word2))
    else
      Response.similarityOk (pyLower word1) (pyLower word2)
  | _, _ => modelNotLoadedResp

/-- The float the `/similarity` response body carries:
`model.similarity(word1.lower(), word2.lower())`. -/
noncomputable def similarityValue (m : VectorModel) (w1 w2 : String) : ℝ :=
  match m.find w1, m.find w2 with
  | some u, some v => cosSimV u v
  | _, _ => 0

/-- `GET /analogy` (`solve_analogy`).  Note: the vocabulary check iterates
over the lowercased words, so its 404 detail quotes the lowercased word,
while the success body's `analogy` field echoes the raw inputs. -/
def solve_analogy (s : StartupState) (a b c : String) (topn : Nat) : Response :=
  match s.model_loaded, s.model with
  | true, some m =>
    if !(m.inVocab (pyLower a)) then
      Response.jsonDetail 500 (httpExcStr 404 (wordNotFoundDetail (pyLower a)))
    else if !(m.inVocab (pyLower b)) then
      Response.jsonDetail 500 (httpExcStr 404 (wordNotFoundDetail (pyLower b)))
    else if !(m.inVocab (pyLower c)) then
      Response.jsonDetail 500 (httpExcStr 404 (wordNotFoundDetail (pyLower c)))
    else
      Response.analogyOk (a ++ " - " ++ b ++ " + " ++ c)
        (analogyMostSimilar m (pyLower a) (pyLower b) (pyLower c) topn)
  | _, _ => modelNotLoadedResp

/-- `GET /neighbors` (`get_neighbors`). -/
def get_neighbors (s : StartupState) (word : String) (topn : Nat) : Response :=
  match s.model_loaded, s.model with
  | true, some m =>
    if !(m.inVocab (pyLower word)) then
      Response.jsonDetail 500 (httpExcStr 404 (wordNotFoundDetail word))
    else
      Response.neighborsOk (pyLower word) (mostSimilar m (pyLower word) topn)
  | _, _ => modelNotLoadedResp

/-- `GET /health` (`health_check`); the timestamp field is real time and is
left out of the shape. -/
def health_check (s : StartupState) : Response :=
  Response.healthOk (if s.model_loaded then "ready" else "initializing")
    s.model_loaded
    (match s.model_loaded, s.model with
     | true, some m => m.vocabSize
     | _, _ => 0)

/-- `GET /loading-status` (`loading_status`). -/
def loading_status (s : StartupState) : Response :=
  Response.loadingStatusOk s.model_loaded s.loading_status s.loading_progress
    (match s.model_loaded, s.model with
     | true, some m => m.vocabSize
     | _, _ => 0)

/-- `GET /vocabulary` (`get_vocabulary_info`). -/
def get_vocabulary_info (s : StartupState) : Response :=
  match s.model_loaded, s.model with
  | true, some m => Response.vocabOk m.vocabSize m.vector_size (m.keys.take 20)
  | _, _ => modelNotLoadedResp

/-! ## Query-parameter validation (FastAPI `Query` constraints)

Word parameters carry `min_length=1, max_length=32, pattern="^[A-Za-z-]+$"`;
`topn` carries `ge=1, le=20` with defaults 1 (`/analogy`) and 10
(`/neighbors`).  FastAPI enforces these while parsing the request, before
the endpoint function body runs, answering 422 on violation. -/

/-- A character the pattern `[A-Za-z-]` accepts. -/
def isWordChar (ch : Char) : Bool :=
  decide ((Char.ofNat 65 ≤ ch ∧ ch ≤ Char.ofNat 90)
    ∨ (Char.ofNat 97 ≤ ch ∧ ch ≤ Char.ofNat 122) ∨ ch = Char.ofNat 45)

/-- The word constraints: length in `[1, 32]` and every character in
`[A-Za-z-]`. -/
def validWord (w : String) : Bool :=
  decide (1 ≤ w.length) && decide (w.length ≤ 32) && w.data.all isWordChar

/-- The `topn` constraints: `ge=1, le=20`. -/
def validTopn (t : Int) : Bool := decide (1 ≤ t ∧ t ≤ 20)

/-! ## Rate limiting and the request pipeline -/

/-- An incoming request: the client address the limiter keys on, plus the
query parameters as supplied (`topn` optional, its absence triggering the
declared default). -/
inductive Req where
  | similarity (client : String) (word1 word2 : String)
  | analogy (client : String) (a b c : String) (topn : Option Int)
  | neighbors (client : String) (word : String) (topn : Option Int)
  | vocabulary (client : String)
  | health (client : String)
  | loadingStatus (client : String)
  | root (client : String)
  deriving DecidableEq

/-- The remote address (`get_remote_address`). -/
def Req.client : Req → String
  | .similarity c _ _ => c
  | .analogy c _ _ _ _ => c
  | .neighbors c _ _ => c
  | .vocabulary c => c
  | .health c => c
  | .loadingStatus c => c
  | .root c => c

/-- The limiter's scope for the route: the endpoint function. -/
def Req.routeName : Req → String
  | .similarity _ _ _ => "get_similarity"
  | .analogy _ _ _ _ _ => "solve_analogy"
  | .neighbors _ _ _ => "get_neighbors"
  | .vocabulary _ => "get_vocabulary_info"
  | .health _ => "health_check"
  | .loadingStatus _ => "loading_status"
  | .root _ => "root"

/-- The requests-per-minute budget the source declares for the route:
`@limiter.limit("30/minute")` on the three vector endpoints, the limiter's
`default_limits=["60/minute"]` everywhere else. -/
def Req.rateBudget : Req → Nat
  | .similarity _ _ _ => 30
  | .analogy _ _ _ _ _ => 30
  | .neighbors _ _ _ => 30
  | _ => 60

/-- The limiter's storage for the current one-minute window: hit counts per
(client address, route scope). -/
abbrev LimiterState := List ((String × String) × Nat)

/-- The window's hit count for a key. -/
def hitCount (ls : LimiterState) (k : String × String) : Nat :=
  (ls.lookup k).getD 0

/-- Record one hit for a key. -/
def recordHit (ls : LimiterState) (k : String × String) : LimiterState :=
  (k, hitCount ls k + 1) :: ls.filter (fun p => p.1 != k)

/-- Modelled from the spec: slowapi's enforcement pipeline is library code,
not part of this repository.  The spec's RateLimiter contract: per client
address, a budget per window for each route (the budgets and the plain-text
429 handler are declared in the source); an exhausted budget rejects, a
remaining one records the hit and lets the request continue. -/
def rateLimitCheck (ls : LimiterState) (r : Req) : Bool × LimiterState :=
  let k := (r.client, r.routeName)
  if hitCount ls k < r.rateBudget then (true, recordHit ls k)
  else (false, ls)

/-- Validation and handler dispatch for a request, given the startup state
the handlers read.  Validation happens while the framework parses the
parameters, before the handler body (and hence before any vocabulary
lookup); an absent `topn` takes the declared default. -/
def dispatch (s : StartupState) : Req → Response
  | .similarity _ w1 w2 =>
    if !(validWord w1) || !(validWord w2) then Response.validationError
    else get_similarity s w1 w2
  | .analogy _ a b c topn =>
    if !(validWord a) || !(validWord b) || !(validWord c) then
      Response.validationError
    else
      match topn with
      | none => solve_analogy s a b c 1
      | some t =>
        if validTopn t then solve_analogy s a b c t.toNat
        else Response.validationError
  | .neighbors _ w topn =>
    if !(validWord w) then Response.validationError
    else
      match topn with
      | none => get_neighbors s w 10
      | some t =>
        if validTopn t then get_neighbors s w t.toNat
        else Response.validationError
  | .vocabulary _ => get_vocabulary_info s
  | .health _ => health_check s
  | .loadingStatus _ => loading_status s
  | .root _ => Response.rootOk

/-- The whole server state a request touches: the lifespan-managed
`app.state` fields (absent before the lifespan runs) and the limiter's
window storage. -/
structure ServerState where
  startup : Option StartupState
  limiter : LimiterState
  deriving DecidableEq

/-- One request through the pipeline: rate limit first (independent of
validation and model state), then validation, then the handler. -/
def processRequest (st : ServerState) (r : Req) : Response × ServerState :=
  let checked := rateLimitCheck st.limiter r
  if checked.1 then
    (dispatch (readState st.startup) r, ⟨st.startup, checked.2⟩)
  else
    (Response.plainText 429 "Too Many Requests", ⟨st.startup, checked.2⟩)

/-! ## The startup sequencer (`lifespan`) -/

/-- The outcome of `api.load('glove-wiki-gigaword-50')`: the loaded model,
or the exception message the `except` block stringifies. -/
inductive LoadResult where
  | success (m : VectorModel)
  | failure (msg : String)

/-- The states `app.state` passes through during the lifespan's startup
block, one entry per assignment, in source order.  On failure the load
raises before the model is assigned and the `except` block records the
error (its no-op re-assignments of `model` and `model_loaded` collapsed).
The whole block contains no `await`, so no other coroutine runs between
these states; see `observableStartupStates`. -/
def lifespanTrace : LoadResult → List StartupState
  | .success m =>
    [⟨false, "Starting up...", 0, none⟩,
     ⟨false, "Downloading GloVe model...", 0, none⟩,
     ⟨false, "Downloading GloVe model...", 25, none⟩,
     ⟨false, "Loading model into memory...", 25, none⟩,
     ⟨false, "Loading model into memory...", 50, none⟩,
     ⟨false, "Loading model into memory...", 50, some m⟩,
     ⟨false, "Optimizing memory usage...", 50, some m⟩,
     ⟨false, "Optimizing memory usage...", 75, some m⟩,
     ⟨true, "Optimizing memory usage...", 75, some m⟩,
     ⟨true, "Ready!", 75, some m⟩,
     ⟨true, "Ready!", 100, some m⟩]
  | .failure msg =>
    [⟨false, "Starting up...", 0, none⟩,
     ⟨false, "Downloading GloVe model...", 0, none⟩,
     ⟨false, "Downloading GloVe model...", 25, none⟩,
     ⟨false, "Loading model into memory...", 25, none⟩,
     ⟨false, "Loading model into memory...", 50, none⟩,
     ⟨false, "Error: " ++ msg, 50, none⟩,
     ⟨false, "Error: " ++ msg, 0, none⟩]

/-- The state the lifespan leaves behind (it swallows the load failure:
`# Don't raise - let the app start anyway`). -/
def lifespanFinal : LoadResult → StartupState
  | .success m => ⟨true, "Ready!", 100, some m⟩
  | .failure msg => ⟨false, "Error: " ++ msg, 0, none⟩

/-- The startup states a request handler can observe.  The startup block
has no suspension point (`api.load` is a blocking call and there is no
`await` before the `yield`), so the event loop runs handlers only with the
attributes still unset (read through `getattr` defaults) or after the block
finished. -/
def observableStartupStates (r : LoadResult) : List StartupState :=
  [readState none, lifespanFinal r]

/-! ## Supporting lemmas -/

theorem lookup_isSome_iff_mem {l : List (String × Vec)} {w : String} :
    (List.lookup w l).isSome = true ↔ w ∈ l.map Prod.fst := by
  induction l with
  | nil => simp [List.lookup]
  | cons p t ih =>
    obtain ⟨k, v⟩ := p
    by_cases h : w = k
    · subst h
      simp [List.lookup]
    · have hbeq : (w == k) = false := by
        simpa using h
      simp [List.lookup, hbeq, ih, h]

theorem inVocab_iff_mem_keys (m : VectorModel) (w : String) :
    m.inVocab w = true ↔ w ∈ m.keys :=
  lookup_isSome_iff_mem

theorem length_filter_ne {l : List String} {w : String}
    (hnd : l.Nodup) (hw : w ∈ l) :
    (l.filter (fun k => k != w)).length = l.length - 1 := by
  induction l with
  | nil => cases hw
  | cons x t ih =>
    rw [List.nodup_cons] at hnd
    rw [List.filter_cons]
    by_cases h : w = x
    · subst h
      have hx : (w != w) = false := by simp
      have hall : t.filter (fun k => k != w) = t := by
        apply List.filter_eq_self.mpr
        intro a ha
        have hne : a ≠ w := fun he => hnd.1 (he ▸ ha)
        simpa using hne
      simp [hx, hall]
    · have hx : (x != w) = true := by
        have hne : x ≠ w := fun he => h he.symm
        simpa using hne
      have hwt : w ∈ t := by
        rcases List.mem_cons.mp hw with h1 | h1
        · exact absurd h1 h
        · exact h1
      have hpos : 1 ≤ t.length := List.length_pos_of_mem hwt
      rw [hx]
      simp only [if_true, List.length_cons, ih hnd.2 hwt]
      omega

theorem mostSimilar_length (m : VectorModel) (w : String) (topn : Nat)
    (hnd : m.keys.Nodup) (hw : w ∈ m.keys) :
    (mostSimilar m w topn).length = min topn (m.vocabSize - 1) := by
  unfold mostSimilar
  rw [List.length_take,
    (List.perm_insertionSort byScoreDesc _).length_eq, List.length_map,
    length_filter_ne hnd hw]
  have : m.keys.length = m.vocabSize := List.length_map _ _
  rw [this]

theorem mostSimilar_not_self (m : VectorModel) (w : String) (topn : Nat) :
    ∀ p ∈ mostSimilar m w topn, p.1 ≠ w := by
  intro p hp
  have hp1 : p ∈ List.insertionSort byScoreDesc
      ((m.keys.filter (fun k => k != w)).map (fun k => (k, neighborScore m w k))) :=
    List.take_subset _ _ hp
  have hp2 : p ∈ (m.keys.filter (fun k => k != w)).map
      (fun k => (k, neighborScore m w k)) :=
    (List.perm_insertionSort byScoreDesc _).subset hp1
  obtain ⟨k, hk, rfl⟩ := List.mem_map.mp hp2
  have := List.mem_filter.mp hk
  simpa using this.2

theorem mostSimilar_sorted (m : VectorModel) (w : String) (topn : Nat) :
    List.Chain' (fun p q : String × ℚ => q.2 ≤ p.2) (mostSimilar m w topn) := by
  have hs : List.Sorted byScoreDesc (List.insertionSort byScoreDesc
      ((m.keys.filter (fun k => k != w)).map (fun k => (k, neighborScore m w k)))) :=
    List.sorted_insertionSort byScoreDesc _
  have hp : List.Pairwise byScoreDesc (mostSimilar m w topn) :=
    hs.sublist (List.take_sublist _ _)
  exact hp.chain'

/-- Recording a hit increments the window count for that key. -/
theorem hitCount_recordHit (ls : LimiterState) (k : String × String) :
    hitCount (recordHit ls k) k = hitCount ls k + 1 := by
  simp [recordHit, hitCount, List.lookup]

/-- A word parameter the constraints reject: empty, longer than 32
characters, or containing a character outside `[A-Za-z-]`. -/
def rejectedWord (w : String) : Prop :=
  w.length = 0 ∨ 32 < w.length ∨ ∃ ch ∈ w.data, isWordChar ch = false

theorem validWord_iff (w : String) :
    validWord w = true
      ↔ 1 ≤ w.length ∧ w.length ≤ 32 ∧ ∀ ch ∈ w.data, isWordChar ch = true := by
  simp [validWord, List.all_eq_true, and_assoc]

theorem validWord_eq_false_of_rejected {w : String} (h : rejectedWord w) :
    validWord w = false := by
  by_contra hne
  have hv : validWord w = true := by
    cases hb : validWord w
    · exact absurd hb hne
    · rfl
  obtain ⟨h1, h2, h3⟩ := (validWord_iff w).mp hv
  rcases h with h | h | ⟨ch, hch, hf⟩
  · omega
  · omega
  · rw [h3 ch hch] at hf
    cases hf

/-! ## Test fixtures -/

/-- A two-word model used as a concrete test vocabulary. -/
def testModel : VectorModel := ⟨[("king", [1, 0]), ("queen", [0, 1])], 2⟩

/-- The ready startup state over `testModel`. -/
def readyState : StartupState := ⟨true, "Ready!", 100, some testModel⟩

/-- The startup state a handler reads before the lifespan sets anything. -/
def unloadedState : StartupState := ⟨false, "Unknown", 0, none⟩

/-- Three words sharing one direction: every pairwise cosine similarity
ties at 1. -/
def tieModel : VectorModel := ⟨[("a", [1]), ("b", [1]), ("c", [1])], 1⟩

/-- A model holding the three analogy test words. -/
def analogyModel : VectorModel := ⟨[("king", [1]), ("man", [1]), ("woman", [1])], 1⟩

/-- The ready startup state over `analogyModel`. -/
def analogyReadyState : StartupState := ⟨true, "Ready!", 100, some analogyModel⟩

/-- A limiter window in which one client has spent all 30 hits of the
`/similarity` budget. -/
def limiterAt30 : LimiterState := [(("9.9.9.9", "get_similarity"), 30)]

/-! ## The claims -/

/-- C1: the claim says a vocabulary miss yields HTTP 404 with detail
`Word '<word>' not found in vocabulary`.  The vocabulary check does run
before any similarity computation, and the handler does raise
`HTTPException(404)` with exactly that detail — but the raise happens
inside the handler's `try`, whose `except Exception` catches FastAPI's
`HTTPException` (an `Exception` subclass) and re-raises it as status 500
with the stringified exception as detail.  Concretely, with the model
loaded and `zzzz` absent from the vocabulary, all three endpoints answer
500 with detail `404: Word 'zzzz' not found in vocabulary`. -/
theorem c1_word_not_found_masked_as_500 :
    get_similarity readyState "zzzz" "king"
      = Response.jsonDetail 500 (httpExcStr 404 (wordNotFoundDetail "zzzz")) ∧
    get_neighbors readyState "zzzz" 5
      = Response.jsonDetail 500 (httpExcStr 404 (wordNotFoundDetail "zzzz")) ∧
    solve_analogy readyState "zzzz" "king" "queen" 1
      = Response.jsonDetail 500 (httpExcStr 404 (wordNotFoundDetail "zzzz")) ∧
    (Response.jsonDetail 500 (httpExcStr 404 (wordNotFoundDetail "zzzz"))).statusCode
      = 500 ∧
    httpExcStr 404 (wordNotFoundDetail "zzzz")
      = "404: Word " ++ squote ++ "zzzz" ++ squote ++ " not found in vocabulary" := by
  refine ⟨by decide, by decide, by decide, rfl, by decide⟩

/-- C2: whenever the startup state has `model_loaded` false or no model
published, every model-dependent endpoint answers the constant
`jsonDetail 503 "Model not loaded"` — uniformly in all of its parameters
and in the rest of the state, so no model operation is invoked. -/
theorem c2_model_not_loaded_503 (s : StartupState)
    (h : s.model_loaded = false ∨ s.model = none) :
    (∀ w1 w2, get_similarity s w1 w2 = modelNotLoadedResp) ∧
    (∀ a b c topn, solve_analogy s a b c topn = modelNotLoadedResp) ∧
    (∀ w topn, get_neighbors s w topn = modelNotLoadedResp) ∧
    get_vocabulary_info s = modelNotLoadedResp ∧
    modelNotLoadedResp = Response.jsonDetail 503 "Model not loaded" ∧
    modelNotLoadedResp.statusCode = 503 := by
  obtain ⟨ml, ls, lp, mo⟩ := s
  rcases h with h | h
  · dsimp only at h
    subst h
    cases mo <;>
      exact ⟨fun _ _ => rfl, fun _ _ _ _ => rfl, fun _ _ => rfl, rfl, rfl, rfl⟩
  · dsimp only at h
    subst h
    cases ml <;>
      exact ⟨fun _ _ => rfl, fun _ _ _ _ => rfl, fun _ _ => rfl, rfl, rfl, rfl⟩

/-- C2 witness: the pre-lifespan read state has no model published and
every `/similarity` request on it answers the 503. -/
theorem c2_witness :
    (unloadedState.model_loaded = false ∨ unloadedState.model = none) ∧
    (∀ w1 w2, get_similarity unloadedState w1 w2 = modelNotLoadedResp) :=
  ⟨Or.inl rfl, (c2_model_not_loaded_503 unloadedState (Or.inl rfl)).1⟩

/-- C3: query validation precedes any vocabulary lookup: a rejected word
or an out-of-range `topn` yields the 422 validation response uniformly in
the startup state (so no vocabulary is consulted), and an absent `topn`
behaves as the declared default (1 for `/analogy`, 10 for `/neighbors`). -/
theorem c3_validation_before_vocab_lookup :
    (∀ s cl w1 w2, rejectedWord w1 ∨ rejectedWord w2 →
      dispatch s (Req.similarity cl w1 w2) = Response.validationError) ∧
    (∀ s cl a b c topn, rejectedWord a ∨ rejectedWord b ∨ rejectedWord c →
      dispatch s (Req.analogy cl a b c topn) = Response.validationError) ∧
    (∀ s cl w topn, rejectedWord w →
      dispatch s (Req.neighbors cl w topn) = Response.validationError) ∧
    (∀ s cl a b c t, t < 1 ∨ 20 < t →
      dispatch s (Req.analogy cl a b c (some t)) = Response.validationError) ∧
    (∀ s cl w t, t < 1 ∨ 20 < t →
      dispatch s (Req.neighbors cl w (some t)) = Response.validationError) ∧
    (∀ s cl a b c, dispatch s (Req.analogy cl a b c none)
      = dispatch s (Req.analogy cl a b c (some 1))) ∧
    (∀ s cl w, dispatch s (Req.neighbors cl w none)
      = dispatch s (Req.neighbors cl w (some 10))) ∧
    Response.validationError.statusCode = 422 := by
  refine ⟨?_, ?_, ?_, ?_, ?_, ?_, ?_, rfl⟩
  · intro s cl w1 w2 h
    rcases h with h | h <;>
      simp [dispatch, validWord_eq_false_of_rejected h]
  · intro s cl a b c topn h
    rcases h with h | h | h <;>
      simp [dispatch, validWord_eq_false_of_rejected h]
  · intro s cl w topn h
    simp [dispatch, validWord_eq_false_of_rejected h]
  · intro s cl a b c t ht
    have htf : validTopn t = false := by
      simp only [validTopn, decide_eq_false_iff_not]
      omega
    by_cases hw : (!(validWord a) || !(validWord b) || !(validWord c)) = true
    · simp [dispatch, hw]
    · rw [Bool.not_eq_true] at hw
      simp [dispatch, hw, htf]
  · intro s cl w t ht
    have htf : validTopn t = false := by
      simp only [validTopn, decide_eq_false_iff_not]
      omega
    by_cases hw : (!(validWord w)) = true
    · simp [dispatch, hw]
    · rw [Bool.not_eq_true] at hw
      simp [dispatch, hw, htf]
  · intro s cl a b c
    by_cases hw : (!(validWord a) || !(validWord b) || !(validWord c)) = true
    · simp [dispatch, hw]
    · rw [Bool.not_eq_true] at hw
      have h1 : validTopn 1 = true := rfl
      simp [dispatch, hw, h1]
  · intro s cl w
    by_cases hw : (!(validWord w)) = true
    · simp [dispatch, hw]
    · rw [Bool.not_eq_true] at hw
      have h10 : validTopn 10 = true := rfl
      simp [dispatch, hw, h10]

/-- C3 witness: a word with a digit is rejected on the loaded state. -/
theorem c3_witness :
    rejectedWord "abc123" ∧
    dispatch readyState (Req.similarity "9.9.9.9" "abc123" "king")
      = Response.validationError :=
  ⟨Or.inr (Or.inr ⟨Char.ofNat 49, by decide, by decide⟩),
   c3_validation_before_vocab_lookup.1 readyState "9.9.9.9" "abc123" "king"
     (Or.inl (Or.inr (Or.inr ⟨Char.ofNat 49, by decide, by decide⟩)))⟩

/-- C4: a request whose client has exhausted the route's declared budget
(30/minute on the three vector endpoints, the 60/minute default elsewhere)
is answered 429 with the plain-text body, with the server state unchanged —
uniformly in the request's parameters and in the startup state, so neither
validation nor the model is consulted. -/
theorem c4_rate_limited_429 (st : ServerState) (r : Req)
    (h : r.rateBudget ≤ hitCount st.limiter (r.client, r.routeName)) :
    processRequest st r = (Response.plainText 429 "Too Many Requests", st) ∧
    (Response.plainText 429 "Too Many Requests").statusCode = 429 ∧
    (∀ cl w1 w2, (Req.similarity cl w1 w2).rateBudget = 30) ∧
    (∀ cl a b c t, (Req.analogy cl a b c t).rateBudget = 30) ∧
    (∀ cl w t, (Req.neighbors cl w t).rateBudget = 30) ∧
    (∀ cl, (Req.vocabulary cl).rateBudget = 60) ∧
    (∀ cl, (Req.health cl).rateBudget = 60) := by
  refine ⟨?_, rfl, fun _ _ _ => rfl, fun _ _ _ _ _ => rfl, fun _ _ _ => rfl,
    fun _ => rfl, fun _ => rfl⟩
  have hlt : ¬ (hitCount st.limiter (r.client, r.routeName) < r.rateBudget) :=
    not_lt.mpr h
  simp [processRequest, rateLimitCheck, hlt]

/-- C4 witness: the 31st `/similarity` call of the window from one address
(30 hits already recorded) is answered 429 even though the word parameters
are valid and regardless of the model being absent. -/
theorem c4_witness :
    (Req.similarity "9.9.9.9" "king" "queen").rateBudget
      ≤ hitCount limiterAt30
          ((Req.similarity "9.9.9.9" "king" "queen").client,
           (Req.similarity "9.9.9.9" "king" "queen").routeName) ∧
    processRequest ⟨none, limiterAt30⟩ (Req.similarity "9.9.9.9" "king" "queen")
      = (Response.plainText 429 "Too Many Requests", ⟨none, limiterAt30⟩) :=
  ⟨by decide,
   (c4_rate_limited_429 ⟨none, limiterAt30⟩
     (Req.similarity "9.9.9.9" "king" "queen") (by decide)).1⟩

/-- C5: a load failure is recorded, not raised: the lifespan ends in the
terminal-failed state (`model_loaded=false`, `loading_status` the error
message, no retry — the load step runs once), `/loading-status` and
`/health` still answer 200 on that state, and every model-dependent
endpoint answers the 503. -/
theorem c5_load_failure_nonfatal (msg : String) :
    lifespanFinal (LoadResult.failure msg)
      = ⟨false, "Error: " ++ msg, 0, none⟩ ∧
    health_check (lifespanFinal (LoadResult.failure msg))
      = Response.healthOk "initializing" false 0 ∧
    (health_check (lifespanFinal (LoadResult.failure msg))).statusCode = 200 ∧
    loading_status (lifespanFinal (LoadResult.failure msg))
      = Response.loadingStatusOk false ("Error: " ++ msg) 0 0 ∧
    (loading_status (lifespanFinal (LoadResult.failure msg))).statusCode = 200 ∧
    (∀ w1 w2, get_similarity (lifespanFinal (LoadResult.failure msg)) w1 w2
      = modelNotLoadedResp) ∧
    (∀ a b c topn, solve_analogy (lifespanFinal (LoadResult.failure msg)) a b c topn
      = modelNotLoadedResp) ∧
    (∀ w topn, get_neighbors (lifespanFinal (LoadResult.failure msg)) w topn
      = modelNotLoadedResp) ∧
    get_vocabulary_info (lifespanFinal (LoadResult.failure msg))
      = modelNotLoadedResp :=
  ⟨rfl, rfl, rfl, rfl, rfl, fun _ _ => rfl, fun _ _ _ _ => rfl,
   fun _ _ => rfl, rfl⟩

/-- C6: the model reference is published before readiness is: at every
assignment boundary of the startup block, `model_loaded = true` implies a
model is assigned; and at every state a request handler can observe (the
block has no suspension point, so that is the unset-attributes state or the
terminal one), `model_loaded = true` moreover implies
`loading_progress = 100`.  A request arriving during the load reads the
unset attributes, sees the not-ready state and gets the 503. -/
theorem c6_model_published_after_load (r : LoadResult) (s t : StartupState)
    (hs : s ∈ lifespanTrace r) (ht : t ∈ observableStartupStates r) :
    (s.model_loaded = true → s.model.isSome = true) ∧
    (t.model_loaded = true → t.model.isSome = true ∧ t.loading_progress = 100) ∧
    (∀ w1 w2, get_similarity (readState none) w1 w2 = modelNotLoadedResp) ∧
    health_check (readState none) = Response.healthOk "initializing" false 0 := by
  refine ⟨?_, ?_, fun _ _ => rfl, rfl⟩
  · cases r with
    | success m =>
      simp only [lifespanTrace, List.mem_cons, List.not_mem_nil, or_false] at hs
      rcases hs with rfl | rfl | rfl | rfl | rfl | rfl | rfl | rfl | rfl | rfl | rfl <;>
        simp
    | failure msg =>
      simp only [lifespanTrace, List.mem_cons, List.not_mem_nil, or_false] at hs
      rcases hs with rfl | rfl | rfl | rfl | rfl | rfl | rfl <;> simp
  · cases r with
    | success m =>
      simp only [observableStartupStates, lifespanFinal, readState,
        List.mem_cons, List.not_mem_nil, or_false] at ht
      rcases ht with rfl | rfl <;> simp
    | failure msg =>
      simp only [observableStartupStates, lifespanFinal, readState,
        List.mem_cons, List.not_mem_nil, or_false] at ht
      rcases ht with rfl | rfl <;> simp

/-- C6 witness: the terminal state of a successful load is in the trace and
carries the published model. -/
theorem c6_witness :
    (⟨true, "Ready!", 100, some testModel⟩ : StartupState)
      ∈ lifespanTrace (LoadResult.success testModel) ∧
    ((⟨true, "Ready!", 100, some testModel⟩ : StartupState).model_loaded = true →
      (⟨true, "Ready!", 100, some testModel⟩ : StartupState).model.isSome = true) :=
  ⟨by simp [lifespanTrace],
   (c6_model_published_after_load (LoadResult.success testModel)
     ⟨true, "Ready!", 100, some testModel⟩
     (lifespanFinal (LoadResult.success testModel))
     (by simp [lifespanTrace]) (by simp [observableStartupStates])).1⟩

/-- C7: with the model loaded and both lowercased words in the vocabulary,
`/similarity` succeeds, and the similarity value it reports lies in
`[-1, 1]` and is symmetric in its two words. -/
theorem c7_similarity_range_and_symmetry (s : StartupState) (m : VectorModel)
    (w1 w2 : String) (hl : s.model_loaded = true) (hm : s.model = some m)
    (h1 : m.inVocab (pyLower w1) = true) (h2 : m.inVocab (pyLower w2) = true) :
    get_similarity s w1 w2 = Response.similarityOk (pyLower w1) (pyLower w2) ∧
    -1 ≤ similarityValue m (pyLower w1) (pyLower w2) ∧
    similarityValue m (pyLower w1) (pyLower w2) ≤ 1 ∧
    similarityValue m (pyLower w1) (pyLower w2)
      = similarityValue m (pyLower w2) (pyLower w1) := by
  obtain ⟨u, hu⟩ := Option.isSome_iff_exists.mp h1
  obtain ⟨v, hv⟩ := Option.isSome_iff_exists.mp h2
  refine ⟨?_, ?_, ?_, ?_⟩
  · obtain ⟨ml, ls, lp, mo⟩ := s
    dsimp only at hl hm
    subst hl
    subst hm
    simp [get_similarity, h1, h2]
  · simp only [similarityValue, hu, hv]
    exact (cosSimV_bounds u v).1
  · simp only [similarityValue, hu, hv]
    exact (cosSimV_bounds u v).2
  · simp only [similarityValue, hu, hv]
    exact cosSimV_comm u v

/-- C7 witness: both test words are in the vocabulary and the request
succeeds with the lowercased echo. -/
theorem c7_witness :
    testModel.inVocab (pyLower "king") = true ∧
    testModel.inVocab (pyLower "queen") = true ∧
    get_similarity readyState "king" "queen"
      = Response.similarityOk (pyLower "king") (pyLower "queen") :=
  ⟨by decide, by decide,
   (c7_similarity_range_and_symmetry readyState testModel "king" "queen"
     rfl rfl (by decide) (by decide)).1⟩

/-- C8 counterexample: in a model whose three words share one direction,
`/neighbors` of `a` with `topn = 2` (an accepted value, with `a` in the
vocabulary and distinct keys) returns the two tied neighbors with equal
scores — the returned list is not strictly descending. -/
theorem c8_counterexample :
    tieModel.keys.Nodup ∧
    tieModel.inVocab "a" = true ∧
    validTopn 2 = true ∧
    (mostSimilar tieModel "a" 2).map Prod.snd = [1, 1] ∧
    ¬ List.Chain' (fun x y : ℚ => y < x) ((mostSimilar tieModel "a" 2).map Prod.snd) := by
  have hfa : tieModel.find "a" = some [1] := rfl
  have hfb : tieModel.find "b" = some [1] := rfl
  have hfc : tieModel.find "c" = some [1] := rfl
  have hb : neighborScore tieModel "a" "b" = 1 := by
    simp only [neighborScore, hfa, hfb]
    norm_num [simKeyV, dotQ, normSqQ]
  have hc : neighborScore tieModel "a" "c" = 1 := by
    simp only [neighborScore, hfa, hfc]
    norm_num [simKeyV, dotQ, normSqQ]
  have hkeys : (tieModel.keys.filter (fun k => k != "a")).map
      (fun k => (k, neighborScore tieModel "a" k)) = [("b", 1), ("c", 1)] := by
    have hfil : tieModel.keys.filter (fun k => k != "a") = ["b", "c"] := rfl
    rw [hfil]
    simp [hb, hc]
  have e : mostSimilar tieModel "a" 2 = [("b", 1), ("c", 1)] := by
    rw [mostSimilar, hkeys]
    decide
  rw [e]
  refine ⟨by decide, by decide, rfl, rfl, ?_⟩
  intro hchain
  rw [List.map_cons, List.map_cons, List.map_nil, List.chain'_cons] at hchain
  exact lt_irrefl 1 hchain.1

/-- C8 amended: `/neighbors` returns exactly `min(topn, vocabulary_size-1)`
entries, never the queried word itself, with scores descending — adjacent
scores non-increasing, ties permitted (strictness fails exactly when two
candidates tie, as `c8_counterexample` exhibits). -/
theorem c8_neighbors_count_exclusion_order (m : VectorModel) (w : String)
    (topn : Nat) (hnd : m.keys.Nodup) (hw : m.inVocab w = true) :
    (mostSimilar m w topn).length = min topn (m.vocabSize - 1) ∧
    (∀ p ∈ mostSimilar m w topn, p.1 ≠ w) ∧
    List.Chain' (fun p q : String × ℚ => q.2 ≤ p.2) (mostSimilar m w topn) ∧
    (∀ s w0, s.model_loaded = true → s.model = some m → pyLower w0 = w →
      get_neighbors s w0 topn = Response.neighborsOk w (mostSimilar m w topn)) := by
  refine ⟨mostSimilar_length m w topn hnd ((inVocab_iff_mem_keys m w).mp hw),
    mostSimilar_not_self m w topn, mostSimilar_sorted m w topn, ?_⟩
  intro s w0 hl hm hlow
  obtain ⟨ml, ls, lp, mo⟩ := s
  dsimp only at hl hm
  subst hl
  subst hm
  rw [get_neighbors, hlow]
  simp [hw]

/-- C8 witness: on the two-word test model the count law holds for the
queried word `king`. -/
theorem c8_witness :
    testModel.keys.Nodup ∧
    testModel.inVocab "king" = true ∧
    (mostSimilar testModel "king" 1).length = min 1 (testModel.vocabSize - 1) :=
  ⟨by decide, by decide,
   (c8_neighbors_count_exclusion_order testModel "king" 1
     (by decide) (by decide)).1⟩

/-- C9 counterexample: `/analogy` queried with `King`, `man`, `woman` (all
in the vocabulary after lowercasing) succeeds, but the response's `analogy`
field echoes the raw input `King - man + woman`, not the lowercased form
the claim requires. -/
theorem c9_counterexample :
    solve_analogy analogyReadyState "King" "man" "woman" 1
      = Response.analogyOk "King - man + woman" [] ∧
    "King - man + woman" ≠ "king - man + woman" := by
  refine ⟨by decide, by decide⟩

/-- C9 amended: every handler lowercases its word inputs before using them
(vocabulary checks and model calls take the lowercased words), and
`/similarity` and `/neighbors` echo the lowercased words in their success
bodies; the `/analogy` response's `analogy` field, however, echoes the
words exactly as supplied, while the model computation still uses the
lowercased forms. -/
theorem c9_lowercasing (s : StartupState) (m : VectorModel)
    (w1 w2 w a b c : String) (topn : Nat)
    (hl : s.model_loaded = true) (hm : s.model = some m)
    (h1 : m.inVocab (pyLower w1) = true) (h2 : m.inVocab (pyLower w2) = true)
    (hw : m.inVocab (pyLower w) = true) (ha : m.inVocab (pyLower a) = true)
    (hb : m.inVocab (pyLower b) = true) (hc : m.inVocab (pyLower c) = true) :
    get_similarity s w1 w2 = Response.similarityOk (pyLower w1) (pyLower w2) ∧
    get_neighbors s w topn
      = Response.neighborsOk (pyLower w) (mostSimilar m (pyLower w) topn) ∧
    solve_analogy s a b c topn
      = Response.analogyOk (a ++ " - " ++ b ++ " + " ++ c)
          (analogyMostSimilar m (pyLower a) (pyLower b) (pyLower c) topn) := by
  obtain ⟨ml, ls, lp, mo⟩ := s
  dsimp only at hl hm
  subst hl
  subst hm
  refine ⟨?_, ?_, ?_⟩
  · simp [get_similarity, h1, h2]
  · simp [get_neighbors, hw]
  · simp [solve_analogy, ha, hb, hc]

/-- C9 witness: with all-lowercase inputs the analogy succeeds and the
computation runs on the lowercased words. -/
theorem c9_witness :
    analogyModel.inVocab (pyLower "king") = true ∧
    analogyModel.inVocab (pyLower "man") = true ∧
    analogyModel.inVocab (pyLower "woman") = true ∧
    solve_analogy analogyReadyState "king" "man" "woman" 1
      = Response.analogyOk ("king" ++ " - " ++ "man" ++ " + " ++ "woman")
          (analogyMostSimilar analogyModel (pyLower "king") (pyLower "man")
            (pyLower "woman") 1) :=
  ⟨by decide, by decide, by decide,
   (c9_lowercasing analogyReadyState analogyModel
     "king" "king" "king" "king" "man" "woman" 1 rfl rfl
     (by decide) (by decide) (by decide) (by decide) (by decide) (by decide)).2.2⟩

/-- C10: a request never mutates the lifespan-owned state: whatever the
request and however the pipeline answers it (429, 422, 404/500, 503 or
200), the `startup` component of the server state — the model reference
and the `model_loaded` / `loading_status` / `loading_progress` fields — is
unchanged; only the limiter's window storage may differ.  The only writer
of the startup fields in the development is the lifespan
(`lifespanTrace` / `lifespanFinal`). -/
theorem c10_handlers_read_only (st : ServerState) (r : Req) :
    (processRequest st r).2.startup = st.startup := by
  rw [processRequest]
  split <;> rfl

end WordVec
